import Mathlib

/-!
Shallow embedding of `rltf/agents/dqn_agent.py` (class `AgentDQN`).

The agent runs two loops over the same step range:
* `_run_env` (the actor): waits for the learner, stores the current
  observation in the replay buffer, chooses an action (epsilon-greedy once
  `learn_started` is set, uniformly random before), signals the learner,
  steps the environment, stores the effect, and resets on episode end;
* `_train_model` (the learner): on training steps samples a batch, waits
  for the actor's signal, runs an optimization step and possibly a target
  update, then saves periodically and signals the actor.

External collaborators (environment, model, exploration schedule, numpy
randomness, the replay buffer's returned slot index) are modelled as
oracles: arbitrary functions of the step number.  Each loop iteration is
translated into the list of externally visible calls it performs, in
program order.
-/

namespace AgentDQN

/-- The externally visible calls made by the two loops of `AgentDQN`.
Observations, actions and buffer indices are abstracted as naturals,
rewards as rationals. -/
inductive Ev : Type where
  | waitTrainDone    : Ev
  | storeFrame       : Nat → Nat → Ev   -- observation stored, slot index returned
  | encodeRecent     : Ev               -- replay_buf.encode_recent_obs()
  | inferAction      : Nat → Ev         -- model.control_action(... ) result
  | randomSample     : Nat → Ev         -- env.action_space.sample() result
  | signalActChosen  : Ev
  | envStep          : Nat → Ev         -- env.step(action)
  | storeEffect      : Nat → Nat → ℚ → Bool → Ev  -- idx, action, reward, done
  | envReset         : Ev
  | logProgress      : Nat → Ev
  | setLearnStarted  : Ev
  | sampleBatch      : Ev               -- replay_buf.sample(batch_size)
  | waitActChosen    : Ev
  | optimize         : Ev               -- sess.run(train_op)
  | updateTarget     : Ev               -- sess.run(update_target)
  | save             : Ev               -- self._save()
  | signalTrainDone  : Ev
deriving DecidableEq

/-- Oracle for everything the actor loop reads from outside its own control
flow at step `t`: the shared `learn_started` flag, the exploration schedule,
the uniform draw, the sampled random action, the model's chosen action, the
replay-buffer slot index returned by `store_frame`, and the environment's
response `(next_obs, reward, done)` and reset observation. -/
structure Oracle : Type where
  learnStarted : Nat → Bool
  exploration  : Nat → ℚ
  draw         : Nat → ℚ
  randomAction : Nat → Nat
  modelAction  : Nat → Nat
  frameIdx     : Nat → Nat
  envStep      : Nat → Nat × ℚ × Bool
  resetObs     : Nat → Nat

/-- Action choice of `_run_env` (dqn_agent.py lines 109-122): epsilon-greedy
when `learn_started` holds, otherwise uniformly random.  Returns the calls
made, in order, together with the chosen action. -/
def chooseAction (o : Oracle) (t : Nat) : List Ev × Nat :=
  if o.learnStarted t then
    -- epsilon = self.exploration.value(t); np.random.uniform(0,1) < epsilon
    if o.draw t < o.exploration t then
      ([Ev.randomSample (o.randomAction t)], o.randomAction t)
    else
      -- state = encode_recent_obs(); action = model.control_action(sess, state)
      ([Ev.encodeRecent, Ev.inferAction (o.modelAction t)], o.modelAction t)
  else
    ([Ev.randomSample (o.randomAction t)], o.randomAction t)

/-- One iteration of the actor loop `_run_env` (dqn_agent.py lines 99-142),
translated into the list of calls it performs in program order, together
with the observation carried into the next iteration. -/
def run_env_iter (o : Oracle) (lastObs : Nat) (t : Nat) : List Ev × Nat :=
  let idx := o.frameIdx t
  let choice := chooseAction o t
  let step := o.envStep t
  let nextObs := step.1
  let reward := step.2.1
  let done := step.2.2
  ([Ev.waitTrainDone, Ev.storeFrame lastObs idx] ++ choice.1 ++
     [Ev.signalActChosen, Ev.envStep choice.2,
      Ev.storeEffect idx choice.2 reward done] ++
     (if done then [Ev.envReset] else []) ++ [Ev.logProgress t],
   if done then o.resetObs t else nextObs)

/-- Constructor-time and loop-gating configuration of the agent:
`start_train`, `train_freq`, `batch_size`, `save_freq`, `start_step`,
`max_steps` live on the `Agent` base class; `update_target_freq`,
`memory_size`, `obs_hist_len` are `AgentDQN.__init__` arguments. -/
structure Config : Type where
  startTrain       : Nat
  trainFreq        : Nat
  updateTargetFreq : Nat
  saveFreq         : Nat
  startStep        : Nat
  maxSteps         : Nat
  memorySize       : Nat
  obsHistLen       : Nat
  batchSize        : Nat

/-- One iteration of the learner loop `_train_model` (dqn_agent.py lines
147-184), translated into the list of calls it performs in program order. -/
def train_model_iter (c : Config) (t : Nat) : List Ev :=
  (if c.startTrain ≤ t ∧ t % c.trainFreq = 0 then
      [Ev.setLearnStarted, Ev.sampleBatch, Ev.waitActChosen, Ev.optimize] ++
        (if t % c.updateTargetFreq = 0 then [Ev.updateTarget] else [])
    else
      [Ev.waitActChosen]) ++
    (if t % c.saveFreq = 0 then [Ev.save] else []) ++ [Ev.signalTrainDone]

/-- The step sequence of the actor loop:
`for t in range(self.start_step, self.max_steps+1)` (dqn_agent.py line 99). -/
def run_env_steps (c : Config) : List Nat :=
  List.range' c.startStep (c.maxSteps + 1 - c.startStep)

/-- The step sequence of the learner loop:
`for t in range(self.start_step, self.max_steps+1)` (dqn_agent.py line 147). -/
def train_model_steps (c : Config) : List Nat :=
  List.range' c.startStep (c.maxSteps + 1 - c.startStep)

/-- Errors surfaced at construction.  The Python code raises
`AssertionError`; the spec calls the condition `InvalidConfiguration`. -/
inductive ConfigError : Type where
  | invalidConfiguration : ConfigError
deriving DecidableEq

/-- Modelled from the spec: the `rltf.memory.ReplayBuffer` constructor is
not part of the sources under review; per the spec it fails with
`InvalidConfiguration` when the buffer capacity is smaller than the history
length. -/
def replayBufferInit (memorySize obsHistLen : Nat) : Except ConfigError Unit :=
  if memorySize < obsHistLen then Except.error ConfigError.invalidConfiguration
  else Except.ok ()

/-- `AgentDQN.__init__` (dqn_agent.py lines 13-66) as far as configuration
validation is concerned: the assert `update_target_freq % self.train_freq
== 0` at line 39, then construction of the `ReplayBuffer` with
`memory_size` and `obs_hist_len` at line 58. -/
def agentInit (c : Config) : Except ConfigError Unit :=
  if c.updateTargetFreq % c.trainFreq = 0 then
    replayBufferInit c.memorySize c.obsHistLen
  else Except.error ConfigError.invalidConfiguration

/-- Number of steps `s < N` whose event time `f s` is at most `τ`: how many
of the events timed by `f` have occurred by instant `τ`. -/
def countLe (f : Nat → Nat) (N τ : Nat) : Nat :=
  ((Finset.range N).filter (fun s => f s ≤ τ)).card

/-- A timed execution of the two loops over steps `0, …, N-1` (step `t`
here stands for source step `start_step + t`).  Each field times one call
of interest on a global clock; `infers t` records whether the actor's
action choice at `t` took the model-inference branch, `trains t` whether
the learner's iteration at `t` took the training branch.

The program-order fields come from the statement order of `_run_env`
(dqn_agent.py lines 99-142) and `_train_model` (lines 147-184).

The two `hsem` fields are modelled from the spec: `_wait_act_chosen`,
`_signal_act_chosen`, `_wait_train_done` and `_signal_train_done` live on
the `Agent` base class, outside the sources under review.  Per the spec
they are binary signals where `wait()` blocks until signaled and then
resets, with `trainDone` pre-signaled once before the first step; hence at
every instant the number of completed waits never exceeds the number of
signals issued (plus one initial credit for `trainDone`). -/
structure HandshakeSched (N : Nat) : Type where
  aWait  : Nat → Nat       -- self._wait_train_done() returns
  aStore : Nat → Nat       -- idx = self.replay_buf.store_frame(last_obs)
  inferB : Nat → Nat       -- model.control_action call begins
  inferE : Nat → Nat       -- model.control_action call returns
  aSig   : Nat → Nat       -- self._signal_act_chosen()
  sample : Nat → Nat       -- batch = self.replay_buf.sample(batch_size)
  lWait  : Nat → Nat       -- self._wait_act_chosen() returns
  optB   : Nat → Nat       -- sess.run(train_op) begins
  optE   : Nat → Nat       -- sess.run(train_op) returns
  lSig   : Nat → Nat       -- self._signal_train_done()
  infers : Nat → Bool
  trains : Nat → Bool
  actor_wait_store : ∀ t, aWait t < aStore t
  actor_store_sig : ∀ t, aStore t < aSig t
  actor_infer : ∀ t, infers t = true →
    aStore t < inferB t ∧ inferB t < inferE t ∧ inferE t < aSig t
  actor_next : ∀ t, aSig t < aWait (t + 1)
  learner_train : ∀ t, trains t = true →
    sample t < lWait t ∧ lWait t < optB t ∧ optB t < optE t ∧ optE t < lSig t
  learner_wait_sig : ∀ t, lWait t < lSig t
  learner_next : ∀ t, lSig t < lWait (t + 1)
  hsem_act : ∀ τ, countLe lWait N τ ≤ countLe aSig N τ
  hsem_train : ∀ τ, countLe aWait N τ ≤ 1 + countLe lSig N τ

namespace HandshakeSched

variable {N : Nat} (S : HandshakeSched N)

lemma aSig_strictMono : StrictMono S.aSig := by
  apply strictMono_nat_of_lt_succ
  intro t
  exact lt_trans (S.actor_next t)
    (lt_trans (S.actor_wait_store (t + 1)) (S.actor_store_sig (t + 1)))

lemma aWait_strictMono : StrictMono S.aWait := by
  apply strictMono_nat_of_lt_succ
  intro t
  exact lt_trans (lt_trans (S.actor_wait_store t) (S.actor_store_sig t))
    (S.actor_next t)

lemma lWait_strictMono : StrictMono S.lWait := by
  apply strictMono_nat_of_lt_succ
  intro t
  exact lt_trans (S.learner_wait_sig t) (S.learner_next t)

lemma lSig_strictMono : StrictMono S.lSig := by
  apply strictMono_nat_of_lt_succ
  intro t
  exact lt_trans (S.learner_next t) (S.learner_wait_sig (t + 1))

/-- If the events timed by `f` occur in increasing order, then by the time
the event of step `t` has occurred, `t + 1` of them have occurred. -/
lemma le_countLe_self {f : Nat → Nat} (hf : Monotone f) {t N : Nat}
    (ht : t < N) : t + 1 ≤ countLe f N (f t) := by
  have hsub : Finset.range (t + 1) ⊆ (Finset.range N).filter (fun s => f s ≤ f t) := by
    intro s hs
    rw [Finset.mem_range] at hs
    rw [Finset.mem_filter, Finset.mem_range]
    exact ⟨lt_of_lt_of_le hs ht, hf (Nat.lt_succ_iff.mp hs)⟩
  calc t + 1 = (Finset.range (t + 1)).card := (Finset.card_range (t + 1)).symm
    _ ≤ _ := Finset.card_le_card hsub

/-- If the events timed by `g` occur in increasing order and at least
`t + 1` of them have occurred by instant `τ`, then step `t`'s event has
occurred by `τ`. -/
lemma event_done_of_countLe {g : Nat → Nat} (hg : Monotone g) {t N τ : Nat}
    (hc : t + 1 ≤ countLe g N τ) : g t ≤ τ := by
  rw [countLe] at hc
  by_contra hgt
  push_neg at hgt
  have hsub : (Finset.range N).filter (fun s => g s ≤ τ) ⊆ Finset.range t := by
    intro s hs
    rw [Finset.mem_filter] at hs
    rw [Finset.mem_range]
    by_contra hst
    push_neg at hst
    exact absurd (le_trans (hg hst) hs.2) (not_le.mpr hgt)
  have := Finset.card_le_card hsub
  rw [Finset.card_range] at this
  omega

/-- The learner's `_wait_act_chosen` for step `t` returns no earlier than
the actor's `_signal_act_chosen` for step `t`. -/
lemma aSig_le_lWait {t : Nat} (ht : t < N) : S.aSig t ≤ S.lWait t :=
  event_done_of_countLe S.aSig_strictMono.monotone
    (le_trans (le_countLe_self S.lWait_strictMono.monotone ht) (S.hsem_act _))

/-- The actor's `_wait_train_done` for step `t + 1` returns no earlier than
the learner's `_signal_train_done` for step `t`. -/
lemma lSig_le_aWait {t : Nat} (ht : t + 1 < N) : S.lSig t ≤ S.aWait (t + 1) := by
  have h1 : t + 2 ≤ countLe S.aWait N (S.aWait (t + 1)) :=
    le_countLe_self S.aWait_strictMono.monotone ht
  have h2 : t + 1 ≤ countLe S.lSig N (S.aWait (t + 1)) := by
    have := S.hsem_train (S.aWait (t + 1))
    omega
  exact event_done_of_countLe S.lSig_strictMono.monotone h2

/-- Any model-inference interval and any model-optimization interval of a
timed execution are disjoint. -/
lemma infer_opt_disjoint {s u : Nat} (hs : s < N) (hu : u < N)
    (hi : S.infers s = true) (ht : S.trains u = true) :
    S.inferE s < S.optB u ∨ S.optE u < S.inferB s := by
  obtain ⟨hi1, hi2, hi3⟩ := S.actor_infer s hi
  obtain ⟨ht1, ht2, ht3, ht4⟩ := S.learner_train u ht
  rcases le_or_lt s u with hsu | hus
  · left
    calc S.inferE s < S.aSig s := hi3
      _ ≤ S.aSig u := S.aSig_strictMono.monotone hsu
      _ ≤ S.lWait u := S.aSig_le_lWait hu
      _ < S.optB u := ht2
  · right
    have hu1 : u + 1 ≤ s - 1 + 1 := by omega
    calc S.optE u < S.lSig u := ht4
      _ ≤ S.lSig (s - 1) := S.lSig_strictMono.monotone (by omega)
      _ ≤ S.aWait (s - 1 + 1) := S.lSig_le_aWait (by omega)
      _ = S.aWait s := by congr 1; omega
      _ < S.aStore s := S.actor_wait_store s
      _ < S.inferB s := hi1

end HandshakeSched

/-- A concrete timed execution over a single step in which the actor takes
the inference branch and the learner takes the training branch, with the
learner's batch sampling falling between the actor's `store_frame` and
`_signal_act_chosen`. -/
def sched1 : HandshakeSched 1 where
  aWait t := 20 * t
  aStore t := 20 * t + 1
  sample t := 20 * t + 2
  inferB t := 20 * t + 3
  inferE t := 20 * t + 4
  aSig t := 20 * t + 5
  lWait t := 20 * t + 6
  optB t := 20 * t + 7
  optE t := 20 * t + 8
  lSig t := 20 * t + 9
  infers _ := true
  trains _ := true
  actor_wait_store t := by dsimp only; omega
  actor_store_sig t := by dsimp only; omega
  actor_infer t _ := by dsimp only; omega
  actor_next t := by dsimp only; omega
  learner_train t _ := by dsimp only; omega
  learner_wait_sig t := by dsimp only; omega
  learner_next t := by dsimp only; omega
  hsem_act τ := by
    dsimp only [countLe]
    simp only [Finset.range_one, Finset.filter_singleton]
    split_ifs <;> simp only [Finset.card_singleton, Finset.card_empty] <;> omega
  hsem_train τ := by
    dsimp only [countLe]
    simp only [Finset.range_one, Finset.filter_singleton]
    split_ifs <;> simp only [Finset.card_singleton, Finset.card_empty] <;> omega

/-- The agent's mutable state, as touched by its public methods. -/
structure AgentState : Type where
  replayBuf    : List (Nat × Nat × ℚ × Bool)
  modelParams  : Nat
  stepCounter  : Nat
  learnStarted : Bool

/-- `AgentDQN.reset` (dqn_agent.py lines 186-187): `pass`.  It returns
`None` and performs no mutation, so it is the identity on the agent state
paired with the unit value. -/
def reset (s : AgentState) : AgentState × Unit := (s, ())

/-- A concrete configuration with the spec's worked values:
`update_target_freq = 20000`, `train_freq = 4`, and the source defaults
`memory_size = 10^6`, `obs_hist_len = 4`. -/
def exampleConfig : Config where
  startTrain := 50000
  trainFreq := 4
  updateTargetFreq := 20000
  saveFreq := 100000
  startStep := 0
  maxSteps := 1000000
  memorySize := 1000000
  obsHistLen := 4
  batchSize := 32

/-- A concrete actor oracle in which `learn_started` is still false. -/
def oracleA : Oracle where
  learnStarted _ := false
  exploration _ := 0
  draw _ := 0
  randomAction _ := 2
  modelAction _ := 3
  frameIdx _ := 5
  envStep _ := (7, 1, false)
  resetObs _ := 0

/-- A concrete actor oracle in which `learn_started` is true and the
uniform draw does not fall below epsilon. -/
def oracleB : Oracle := { oracleA with learnStarted := fun _ => true }

end AgentDQN

namespace AgentDQN

/-- C1: the learner's optimization at step `u` starts only after its
`_wait_act_chosen` for step `u` has returned, the actor's inference at step
`s` finishes before its `_signal_act_chosen` for step `s`, and no instant
lies inside both an inference interval and an optimization interval: the
handshake keeps model inference and model optimization from ever being in
flight at the same time. -/
theorem infer_opt_never_concurrent {N : Nat} (S : HandshakeSched N)
    (s u τ : Nat) (hs : s < N) (hu : u < N)
    (hi : S.infers s = true) (ht : S.trains u = true) :
    S.lWait u < S.optB u ∧ S.inferE s < S.aSig s ∧
      ¬ (S.inferB s ≤ τ ∧ τ ≤ S.inferE s ∧ S.optB u ≤ τ ∧ τ ≤ S.optE u) := by
  refine ⟨(S.learner_train u ht).2.1, (S.actor_infer s hi).2.2, ?_⟩
  rintro ⟨h1, h2, h3, h4⟩
  rcases S.infer_opt_disjoint hs hu hi ht with h | h <;> omega

/-- Witness for C1 at the concrete one-step execution `sched1` and the
instant `τ = 4`, which lies inside the inference interval `[3, 4]`. -/
theorem infer_opt_never_concurrent_witness :
    sched1.lWait 0 < sched1.optB 0 ∧ sched1.inferE 0 < sched1.aSig 0 ∧
      ¬ (sched1.inferB 0 ≤ 4 ∧ 4 ≤ sched1.inferE 0 ∧
          sched1.optB 0 ≤ 4 ∧ 4 ≤ sched1.optE 0) :=
  infer_opt_never_concurrent sched1 0 0 4 (by decide) (by decide) rfl rfl

/-- C2: every iteration of `_run_env` performs, in exactly this order:
`_wait_train_done`, `store_frame` of the current observation, the action
choice (one or two calls, each a random sample, an `encode_recent_obs` or a
model inference), `_signal_act_chosen`, `env.step` with the chosen action,
`store_effect` on the slot index returned by `store_frame`, and, when the
step ended the episode, `env.reset`. -/
theorem run_env_iter_order (o : Oracle) (lastObs t : Nat) :
    ∃ actEvs action reward done,
      (run_env_iter o lastObs t).1 =
        [Ev.waitTrainDone, Ev.storeFrame lastObs (o.frameIdx t)] ++ actEvs ++
          [Ev.signalActChosen, Ev.envStep action,
            Ev.storeEffect (o.frameIdx t) action reward done] ++
          (if done then [Ev.envReset] else []) ++ [Ev.logProgress t] ∧
      actEvs ≠ [] ∧
      ∀ e ∈ actEvs, e = Ev.encodeRecent ∨ (∃ a, e = Ev.randomSample a) ∨
        ∃ a, e = Ev.inferAction a := by
  refine ⟨(chooseAction o t).1, (chooseAction o t).2,
    (o.envStep t).2.1, (o.envStep t).2.2, rfl, ?_, ?_⟩ <;>
    · rw [chooseAction]
      split_ifs <;> simp

/-- C3: while `learn_started` is still false, the actor picks the randomly
sampled action and its iteration never calls `encode_recent_obs` nor the
model's inference entry point. -/
theorem random_before_learn_started (o : Oracle) (lastObs t : Nat)
    (h : o.learnStarted t = false) :
    chooseAction o t = ([Ev.randomSample (o.randomAction t)], o.randomAction t) ∧
    Ev.randomSample (o.randomAction t) ∈ (run_env_iter o lastObs t).1 ∧
    Ev.encodeRecent ∉ (run_env_iter o lastObs t).1 ∧
    ∀ a, Ev.inferAction a ∉ (run_env_iter o lastObs t).1 := by
  have hc : chooseAction o t =
      ([Ev.randomSample (o.randomAction t)], o.randomAction t) := by
    rw [chooseAction, h]
    simp
  refine ⟨hc, ?_, ?_, ?_⟩ <;>
    · cases hd : (o.envStep t).2.2 <;> simp [run_env_iter, hc, hd]

/-- Witness for C3 at the oracle `oracleA`, whose `learn_started` flag is
false at every step. -/
theorem random_before_learn_started_witness :
    chooseAction oracleA 0 = ([Ev.randomSample 2], 2) ∧
    Ev.randomSample 2 ∈ (run_env_iter oracleA 0 0).1 ∧
    Ev.encodeRecent ∉ (run_env_iter oracleA 0 0).1 ∧
    ∀ a, Ev.inferAction a ∉ (run_env_iter oracleA 0 0).1 :=
  random_before_learn_started oracleA 0 0 rfl

/-- C4: construction fails when `update_target_freq` is not a multiple of
`train_freq` (the line-39 assert) and when the buffer capacity is below the
history length (the spec-modelled `ReplayBuffer` check); it succeeds with
`update_target_freq = 20000`, `train_freq = 4` and the source defaults,
and fails with `update_target_freq = 20001`. -/
theorem agentInit_validation :
    (∀ c : Config, c.updateTargetFreq % c.trainFreq ≠ 0 →
      agentInit c = Except.error ConfigError.invalidConfiguration) ∧
    (∀ c : Config, c.memorySize < c.obsHistLen →
      agentInit c = Except.error ConfigError.invalidConfiguration) ∧
    agentInit exampleConfig = Except.ok () ∧
    agentInit { exampleConfig with updateTargetFreq := 20001 } =
      Except.error ConfigError.invalidConfiguration := by
  refine ⟨?_, ?_, by rfl, by rfl⟩
  · intro c h
    rw [agentInit, if_neg h]
  · intro c h
    rw [agentInit]
    split
    · rw [replayBufferInit, if_pos h]
    · rfl

/-- Witness for C4: both failure conditions and the success case at
concrete configurations. -/
theorem agentInit_validation_witness :
    agentInit { exampleConfig with updateTargetFreq := 20001 } =
      Except.error ConfigError.invalidConfiguration ∧
    agentInit { exampleConfig with memorySize := 2 } =
      Except.error ConfigError.invalidConfiguration ∧
    agentInit exampleConfig = Except.ok () :=
  ⟨agentInit_validation.1 _ (by decide), agentInit_validation.2.1 _ (by decide),
    agentInit_validation.2.2.1⟩

/-- C5: in a training iteration of `_train_model`, `replay_buf.sample` is
called strictly before `_wait_act_chosen`; consequently there is a valid
timed execution in which the sampling falls between the actor's
`store_frame` and `_signal_act_chosen` of the same step, overlapping the
actor's frame store and action choice. -/
theorem sample_before_wait (c : Config) (t : Nat)
    (h1 : c.startTrain ≤ t) (h2 : t % c.trainFreq = 0) :
    (∃ l1 l2 l3, train_model_iter c t =
      l1 ++ Ev.sampleBatch :: l2 ++ Ev.waitActChosen :: l3) ∧
    ∃ S : HandshakeSched 1, S.trains 0 = true ∧
      S.aStore 0 < S.sample 0 ∧ S.sample 0 < S.aSig 0 := by
  constructor
  · refine ⟨[Ev.setLearnStarted], [],
      Ev.optimize ::
        ((if t % c.updateTargetFreq = 0 then [Ev.updateTarget] else []) ++
          ((if t % c.saveFreq = 0 then [Ev.save] else []) ++
            [Ev.signalTrainDone])), ?_⟩
    rw [train_model_iter, if_pos ⟨h1, h2⟩]
    simp
  · exact ⟨sched1, rfl, by decide, by decide⟩

/-- Witness for C5 at `exampleConfig` and the training step `t = 50000`. -/
theorem sample_before_wait_witness :
    (∃ l1 l2 l3, train_model_iter exampleConfig 50000 =
      l1 ++ Ev.sampleBatch :: l2 ++ Ev.waitActChosen :: l3) ∧
    ∃ S : HandshakeSched 1, S.trains 0 = true ∧
      S.aStore 0 < S.sample 0 ∧ S.sample 0 < S.aSig 0 :=
  sample_before_wait exampleConfig 50000 (by decide) (by decide)

/-- C6: an iteration of `_train_model` runs `update_target` exactly when it
also runs an optimization step (training occurs) and
`t % update_target_freq == 0`. -/
theorem update_target_iff (c : Config) (t : Nat) :
    Ev.updateTarget ∈ train_model_iter c t ↔
      Ev.optimize ∈ train_model_iter c t ∧ t % c.updateTargetFreq = 0 := by
  by_cases hA : c.startTrain ≤ t ∧ t % c.trainFreq = 0 <;>
    by_cases hB : t % c.updateTargetFreq = 0 <;>
      by_cases hC : t % c.saveFreq = 0 <;>
        simp [train_model_iter, hA, hB, hC]

/-- C7: once `learn_started` holds, the actor chooses epsilon-greedily: if
the uniform draw falls below the exploration schedule's epsilon it takes
the randomly sampled action, otherwise it calls `encode_recent_obs` and
takes the model's inference result; either way the chosen action is the
one applied to the environment. -/
theorem epsilon_greedy (o : Oracle) (lastObs t : Nat)
    (h : o.learnStarted t = true) :
    (o.draw t < o.exploration t →
      chooseAction o t =
        ([Ev.randomSample (o.randomAction t)], o.randomAction t)) ∧
    (o.exploration t ≤ o.draw t →
      chooseAction o t =
        ([Ev.encodeRecent, Ev.inferAction (o.modelAction t)],
          o.modelAction t)) ∧
    Ev.envStep (chooseAction o t).2 ∈ (run_env_iter o lastObs t).1 := by
  refine ⟨?_, ?_, ?_⟩
  · intro hlt
    rw [chooseAction, h]
    simp [hlt]
  · intro hle
    rw [chooseAction, h]
    simp [not_lt.mpr hle]
  · simp [run_env_iter]

/-- Witness for C7 at the oracle `oracleB`, where `learn_started` holds and
the draw does not fall below epsilon, so the model's action is taken. -/
theorem epsilon_greedy_witness :
    chooseAction oracleB 0 = ([Ev.encodeRecent, Ev.inferAction 3], 3) ∧
    Ev.envStep (chooseAction oracleB 0).2 ∈ (run_env_iter oracleB 0 0).1 :=
  ⟨(epsilon_greedy oracleB 0 0 rfl).2.1 (le_refl 0),
    (epsilon_greedy oracleB 0 0 rfl).2.2⟩

/-- C8: an iteration of `_train_model` runs `_save` exactly when
`t % save_freq == 0`, and when it does, the save precedes the
`_signal_train_done` of that iteration. -/
theorem save_iff_before_signal (c : Config) (t : Nat) :
    (Ev.save ∈ train_model_iter c t ↔ t % c.saveFreq = 0) ∧
    (t % c.saveFreq = 0 → ∃ l1 l2, train_model_iter c t =
      l1 ++ Ev.save :: l2 ++ [Ev.signalTrainDone]) := by
  constructor
  · by_cases hA : c.startTrain ≤ t ∧ t % c.trainFreq = 0 <;>
      by_cases hB : t % c.updateTargetFreq = 0 <;>
        by_cases hC : t % c.saveFreq = 0 <;>
          simp [train_model_iter, hA, hB, hC]
  · intro hC
    by_cases hA : c.startTrain ≤ t ∧ t % c.trainFreq = 0
    · by_cases hB : t % c.updateTargetFreq = 0
      · exact ⟨[Ev.setLearnStarted, Ev.sampleBatch, Ev.waitActChosen,
          Ev.optimize, Ev.updateTarget], [],
          by simp [train_model_iter, hA, hB, hC]⟩
      · exact ⟨[Ev.setLearnStarted, Ev.sampleBatch, Ev.waitActChosen,
          Ev.optimize], [], by simp [train_model_iter, hA, hB, hC]⟩
    · exact ⟨[Ev.waitActChosen], [], by simp [train_model_iter, hA, hC]⟩

/-- Witness for C8 at `exampleConfig` and `t = 0`, a non-training step with
`0 % save_freq == 0`. -/
theorem save_iff_before_signal_witness :
    Ev.save ∈ train_model_iter exampleConfig 0 ∧
    ∃ l1 l2, train_model_iter exampleConfig 0 =
      l1 ++ Ev.save :: l2 ++ [Ev.signalTrainDone] :=
  ⟨(save_iff_before_signal exampleConfig 0).1.mpr (by decide),
    (save_iff_before_signal exampleConfig 0).2 (by decide)⟩

/-- C9: both loops iterate over the identical step range
`range(start_step, max_steps + 1)`, hence the same number of iterations,
namely `max_steps - start_step + 1`. -/
theorem loops_same_range (c : Config) (h : c.startStep ≤ c.maxSteps) :
    run_env_steps c = train_model_steps c ∧
    (run_env_steps c).length = c.maxSteps - c.startStep + 1 ∧
    (train_model_steps c).length = c.maxSteps - c.startStep + 1 := by
  refine ⟨rfl, ?_, ?_⟩
  · rw [run_env_steps, List.length_range']
    omega
  · rw [train_model_steps, List.length_range']
    omega

/-- Witness for C9 at `exampleConfig` (steps 0 through 10^6). -/
theorem loops_same_range_witness :
    run_env_steps exampleConfig = train_model_steps exampleConfig ∧
    (run_env_steps exampleConfig).length =
      exampleConfig.maxSteps - exampleConfig.startStep + 1 ∧
    (train_model_steps exampleConfig).length =
      exampleConfig.maxSteps - exampleConfig.startStep + 1 :=
  loops_same_range exampleConfig (by decide)

/-- C10: `AgentDQN.reset` leaves every field of the agent state unchanged
and returns the unit value. -/
theorem reset_noop (s : AgentState) :
    (reset s).1.replayBuf = s.replayBuf ∧
    (reset s).1.modelParams = s.modelParams ∧
    (reset s).1.stepCounter = s.stepCounter ∧
    (reset s).1.learnStarted = s.learnStarted ∧
    (reset s).2 = () :=
  ⟨rfl, rfl, rfl, rfl, rfl⟩

end AgentDQN
